import Mathlib

/-!
Verification development for the vibevj real-time rendering engine.

The definitions below are a shallow embedding of the Rust source:
`f32` scalars are modelled as `ℚ` (all facts proved here only involve
exact dyadic arithmetic), `u32` counters and indices as `ℕ`, `Vec<T>` as
`List T`, `Option<T>` as `Option T`, and GPU handles (buffers, bind
groups, textures) as opaque identifiers `ℕ` paired with their CPU-visible
content where the code writes through them.  Transcendental `f32`
operations (`sin`, `cos`, `tan`, `sqrt`) are passed in as function
parameters, so every definition stays executable.
-/

namespace VibeVJ

/-- Vector with 3 components, modelling `glam::Vec3` / `[f32; 3]`. -/
structure V3 where
  x : ℚ
  y : ℚ
  z : ℚ
  deriving DecidableEq, Repr

/-- Componentwise difference of two vectors. -/
def vsub (a b : V3) : V3 := ⟨a.x - b.x, a.y - b.y, a.z - b.z⟩

/-- Cross product of two vectors (`glam::Vec3::cross`). -/
def vcross (a b : V3) : V3 :=
  ⟨a.y * b.z - a.z * b.y, a.z * b.x - a.x * b.z, a.x * b.y - a.y * b.x⟩

/-- Dot product of two vectors (`glam::Vec3::dot`). -/
def vdot (a b : V3) : ℚ := a.x * b.x + a.y * b.y + a.z * b.z

/-- Vertex layout from `mesh.rs`: position, normal, uv, color. -/
structure Vertex where
  position : V3
  normal : V3
  uv : ℚ × ℚ
  color : V3
  deriving DecidableEq, Repr

/-- Constructor `Vertex::new` from `mesh.rs`. -/
def Vertex.new (position normal : V3) (uv : ℚ × ℚ) (color : V3) : Vertex :=
  ⟨position, normal, uv, color⟩

/-- Data of `Mesh::new`: CPU-side vertex and index lists (`mesh.rs`).
The GPU buffer fields are `None` until upload and play no role in the
mesh-generation claims. -/
structure Mesh where
  vertices : List Vertex
  indices : List ℕ
  deriving DecidableEq, Repr

/-! ### Shape generators (`mesh_gen.rs`) -/

/-- Generator `create_cube` from `mesh_gen.rs`: 24 vertices (4 per face), 36 indices. -/
def create_cube (size : ℚ) : Mesh :=
  let s := size / 2
  let vertices : List Vertex := [
    -- Front face (Z+)
    Vertex.new ⟨-s, -s, s⟩ ⟨0, 0, 1⟩ (0, 0) ⟨1, 0, 0⟩,
    Vertex.new ⟨s, -s, s⟩ ⟨0, 0, 1⟩ (1, 0) ⟨1, 0, 0⟩,
    Vertex.new ⟨s, s, s⟩ ⟨0, 0, 1⟩ (1, 1) ⟨1, 0, 0⟩,
    Vertex.new ⟨-s, s, s⟩ ⟨0, 0, 1⟩ (0, 1) ⟨1, 0, 0⟩,
    -- Back face (Z-)
    Vertex.new ⟨s, -s, -s⟩ ⟨0, 0, -1⟩ (0, 0) ⟨0, 1, 0⟩,
    Vertex.new ⟨-s, -s, -s⟩ ⟨0, 0, -1⟩ (1, 0) ⟨0, 1, 0⟩,
    Vertex.new ⟨-s, s, -s⟩ ⟨0, 0, -1⟩ (1, 1) ⟨0, 1, 0⟩,
    Vertex.new ⟨s, s, -s⟩ ⟨0, 0, -1⟩ (0, 1) ⟨0, 1, 0⟩,
    -- Right face (X+)
    Vertex.new ⟨s, -s, s⟩ ⟨1, 0, 0⟩ (0, 0) ⟨0, 0, 1⟩,
    Vertex.new ⟨s, -s, -s⟩ ⟨1, 0, 0⟩ (1, 0) ⟨0, 0, 1⟩,
    Vertex.new ⟨s, s, -s⟩ ⟨1, 0, 0⟩ (1, 1) ⟨0, 0, 1⟩,
    Vertex.new ⟨s, s, s⟩ ⟨1, 0, 0⟩ (0, 1) ⟨0, 0, 1⟩,
    -- Left face (X-)
    Vertex.new ⟨-s, -s, -s⟩ ⟨-1, 0, 0⟩ (0, 0) ⟨1, 1, 0⟩,
    Vertex.new ⟨-s, -s, s⟩ ⟨-1, 0, 0⟩ (1, 0) ⟨1, 1, 0⟩,
    Vertex.new ⟨-s, s, s⟩ ⟨-1, 0, 0⟩ (1, 1) ⟨1, 1, 0⟩,
    Vertex.new ⟨-s, s, -s⟩ ⟨-1, 0, 0⟩ (0, 1) ⟨1, 1, 0⟩,
    -- Top face (Y+)
    Vertex.new ⟨-s, s, s⟩ ⟨0, 1, 0⟩ (0, 0) ⟨1, 0, 1⟩,
    Vertex.new ⟨s, s, s⟩ ⟨0, 1, 0⟩ (1, 0) ⟨1, 0, 1⟩,
    Vertex.new ⟨s, s, -s⟩ ⟨0, 1, 0⟩ (1, 1) ⟨1, 0, 1⟩,
    Vertex.new ⟨-s, s, -s⟩ ⟨0, 1, 0⟩ (0, 1) ⟨1, 0, 1⟩,
    -- Bottom face (Y-)
    Vertex.new ⟨-s, -s, -s⟩ ⟨0, -1, 0⟩ (0, 0) ⟨0, 1, 1⟩,
    Vertex.new ⟨s, -s, -s⟩ ⟨0, -1, 0⟩ (1, 0) ⟨0, 1, 1⟩,
    Vertex.new ⟨s, -s, s⟩ ⟨0, -1, 0⟩ (1, 1) ⟨0, 1, 1⟩,
    Vertex.new ⟨-s, -s, s⟩ ⟨0, -1, 0⟩ (0, 1) ⟨0, 1, 1⟩]
  let indices : List ℕ := [
    0, 1, 2, 2, 3, 0,
    4, 5, 6, 6, 7, 4,
    8, 9, 10, 10, 11, 8,
    12, 13, 14, 14, 15, 12,
    16, 17, 18, 18, 19, 16,
    20, 21, 22, 22, 23, 20]
  ⟨vertices, indices⟩

/-- Vertex loop of `create_sphere`: one ring per `0..=rings`, one vertex
per `0..=segments`.  `sinf`/`cosf`/`pi` stand for the `f32`
transcendental operations. -/
def sphereVertices (sinf cosf : ℚ → ℚ) (pi radius : ℚ) (segments rings : ℕ) :
    List Vertex :=
  (List.range (rings + 1)).flatMap fun (ring : ℕ) =>
    (List.range (segments + 1)).map fun (segment : ℕ) =>
      let phi := pi * (ring : ℚ) / (rings : ℚ)
      let sin_phi := sinf phi
      let cos_phi := cosf phi
      let theta := 2 * pi * (segment : ℚ) / (segments : ℚ)
      let sin_theta := sinf theta
      let cos_theta := cosf theta
      let x := sin_phi * cos_theta
      let y := cos_phi
      let z := sin_phi * sin_theta
      let u := (segment : ℚ) / (segments : ℚ)
      let v := (ring : ℚ) / (rings : ℚ)
      let color : V3 := ⟨(x + 1) * 0.5, (y + 1) * 0.5, (z + 1) * 0.5⟩
      Vertex.new ⟨x * radius, y * radius, z * radius⟩ ⟨x, y, z⟩ (u, v) color

/-- Index loop of `create_sphere`: two triangles per quad. -/
def sphereIndices (segments rings : ℕ) : List ℕ :=
  (List.range rings).flatMap fun ring =>
    (List.range segments).flatMap fun segment =>
      let current := ring * (segments + 1) + segment
      let next := current + segments + 1
      [current, next, current + 1, current + 1, next, next + 1]

/-- Generator `create_sphere` from `mesh_gen.rs`. -/
def create_sphere (sinf cosf : ℚ → ℚ) (pi radius : ℚ) (segments rings : ℕ) :
    Mesh :=
  ⟨sphereVertices sinf cosf pi radius segments rings, sphereIndices segments rings⟩

/-- Vertex loop of `create_plane`. -/
def planeVertices (width height : ℚ) (subdivisions_x subdivisions_y : ℕ) :
    List Vertex :=
  let half_width := width / 2
  let half_height := height / 2
  (List.range (subdivisions_y + 1)).flatMap fun (y : ℕ) =>
    let v := (y : ℚ) / (subdivisions_y : ℚ)
    let py := -half_height + height * v
    (List.range (subdivisions_x + 1)).map fun (x : ℕ) =>
      let u := (x : ℚ) / (subdivisions_x : ℚ)
      let px := -half_width + width * u
      Vertex.new ⟨px, py, 0⟩ ⟨0, 0, 1⟩ (u, v) ⟨1, 1, 1⟩

/-- Index loop of `create_plane`. -/
def planeIndices (subdivisions_x subdivisions_y : ℕ) : List ℕ :=
  (List.range subdivisions_y).flatMap fun y =>
    (List.range subdivisions_x).flatMap fun x =>
      let base := y * (subdivisions_x + 1) + x
      let next_row := base + subdivisions_x + 1
      [base, next_row, base + 1, base + 1, next_row, next_row + 1]

/-- Generator `create_plane` from `mesh_gen.rs`. -/
def create_plane (width height : ℚ) (subdivisions_x subdivisions_y : ℕ) : Mesh :=
  ⟨planeVertices width height subdivisions_x subdivisions_y,
   planeIndices subdivisions_x subdivisions_y⟩

/-- Side-vertex loop of `create_cylinder` (`for ring in 0..=1`). -/
def cylinderSideVertices (sinf cosf : ℚ → ℚ) (pi radius height : ℚ)
    (segments : ℕ) : List Vertex :=
  let half_height := height / 2
  (List.range 2).flatMap fun (ring : ℕ) =>
    let y := if ring = 0 then -half_height else half_height
    let v := (ring : ℚ)
    (List.range (segments + 1)).map fun (segment : ℕ) =>
      let theta := 2 * pi * (segment : ℚ) / (segments : ℚ)
      let x := cosf theta
      let z := sinf theta
      let u := (segment : ℚ) / (segments : ℚ)
      Vertex.new ⟨x * radius, y, z * radius⟩ ⟨x, 0, z⟩ (u, v) ⟨1, 1, 1⟩

/-- Side-index loop of `create_cylinder`. -/
def cylinderIndices (segments : ℕ) : List ℕ :=
  (List.range segments).flatMap fun segment =>
    let base := segment
    let next := segment + 1
    let top_base := base + segments + 1
    let top_next := next + segments + 1
    [base, top_base, next, next, top_base, top_next]

/-- Generator `create_cylinder` from `mesh_gen.rs`: side vertices and indices, then
two cap-center vertices appended (the code pushes the centers but emits
no cap triangles). -/
def create_cylinder (sinf cosf : ℚ → ℚ) (pi radius height : ℚ)
    (segments : ℕ) : Mesh :=
  let half_height := height / 2
  let side := cylinderSideVertices sinf cosf pi radius height segments
  let cap_bottom := Vertex.new ⟨0, -half_height, 0⟩ ⟨0, -1, 0⟩ (0.5, 0.5) ⟨1, 1, 1⟩
  let cap_top := Vertex.new ⟨0, half_height, 0⟩ ⟨0, 1, 0⟩ (0.5, 0.5) ⟨1, 1, 1⟩
  ⟨side ++ [cap_bottom, cap_top], cylinderIndices segments⟩

/-- Winding functional of the spec for one index triple `(a, b, c)` of a
mesh: the dot product of `(v_b - v_a) × (v_c - v_a)` with the outward
normal stored at vertex `a` (positions and normals read from the mesh,
defaulting to zero for out-of-range indices). -/
def windingDot (m : Mesh) (a b c : ℕ) : ℚ :=
  let pos := fun i => ((m.vertices.getD i (Vertex.new ⟨0,0,0⟩ ⟨0,0,0⟩ (0,0) ⟨0,0,0⟩)).position)
  let nrm := fun i => ((m.vertices.getD i (Vertex.new ⟨0,0,0⟩ ⟨0,0,0⟩ (0,0) ⟨0,0,0⟩)).normal)
  vdot (vcross (vsub (pos b) (pos a)) (vsub (pos c) (pos a))) (nrm a)

/-! ### Drawables (`render_object.rs`)

GPU handles are modelled as opaque identifiers `ℕ`; the model uniform
buffer additionally carries its CPU-visible content (the matrix last
written through it), since `update_transform` writes through it.  The
model-transform type is kept abstract as `M` (it is `glam::Mat4` in the
source; no claim depends on matrix arithmetic on the drawables). -/

/-- State of a `RenderObject`: CPU data plus the lazily-`None`
device-side fields of `render_object.rs`. -/
structure RenderObjectSt (M : Type) where
  mesh : Mesh
  material : ℕ
  transform : M
  vertexBuffer : Option ℕ
  indexBuffer : Option ℕ
  materialBuffer : Option ℕ
  modelBuffer : Option (ℕ × M)
  materialBindGroup : Option ℕ
  modelBindGroup : Option ℕ
  deriving DecidableEq, Repr

/-- Method `RenderObject::update_transform`: store the new transform, then — if
the model uniform buffer has been created — write the matrix into that
existing buffer (`queue.write_buffer`), keeping its identity. -/
def updateTransform {M : Type} (o : RenderObjectSt M) (t : M) : RenderObjectSt M :=
  let o1 := { o with transform := t }
  match o.modelBuffer with
  | some (bufId, _) => { o1 with modelBuffer := some (bufId, t) }
  | none => o1

/-- One recorded `draw_indexed` call: the index range drawn. -/
structure DrawCall where
  firstIndex : ℕ
  endIndex : ℕ
  deriving DecidableEq, Repr

/-- A drawable has all four GPU resources checked by
`SceneRenderer::render` present. -/
def objUploaded {M : Type} (o : RenderObjectSt M) : Bool :=
  o.vertexBuffer.isSome && o.indexBuffer.isSome &&
  o.modelBindGroup.isSome && o.materialBindGroup.isSome

/-- The drawable loop of `SceneRenderer::render` (`renderer.rs` in
`vibevj-scene`): for each object whose vertex buffer, index buffer, model
bind group and material bind group are all present, record one
`draw_indexed(0..indices.len(), 0, 0..1)`; other objects are skipped. -/
def sceneRender {M : Type} (objects : List (RenderObjectSt M)) : List DrawCall :=
  objects.foldl (fun acc o =>
    match o.vertexBuffer, o.indexBuffer, o.modelBindGroup, o.materialBindGroup with
    | some _, some _, some _, some _ => acc ++ [⟨0, o.mesh.indices.length⟩]
    | _, _, _, _ => acc) []

/-! ### Preview window (`preview_window.rs`) -/

/-- Replace the element at position `i` by `f` of it; out-of-range `i`
leaves the list unchanged (models in-place slice assignment). -/
def listUpdate {α : Type _} (f : α → α) : List α → ℕ → List α
  | [], _ => []
  | a :: as, 0 => f a :: as
  | a :: as, n + 1 => a :: listUpdate f as n

/-- The pending-transform loop of `PreviewWindow::render` (lines
271–285): iterate over the enumerated transform list; for each `(i, t)`
with `i` in range of the object list, set object `i`'s transform and
write its model uniform buffer if present (the same two steps as
`update_transform`). -/
def applyLoop {M : Type} : List (ℕ × M) → List (RenderObjectSt M) → List (RenderObjectSt M)
  | [], objs => objs
  | (i, t) :: rest, objs =>
      applyLoop rest
        (if i < objs.length then listUpdate (fun o => updateTransform o t) objs i else objs)

/-- Apply a pending transform list positionally to the drawable list. -/
def applyPendingTransforms {M : Type} (objs : List (RenderObjectSt M)) (ts : List M) :
    List (RenderObjectSt M) :=
  applyLoop ts.enum objs

/-- Test `charsStartWith pat s`: `pat` is an initial run of `s`. -/
def charsStartWith : List Char → List Char → Bool
  | [], _ => true
  | _ :: _, [] => false
  | a :: as, b :: bs => a == b && charsStartWith as bs

/-- Test `charsOccurs pat s`: `pat` occurs contiguously somewhere in `s`. -/
def charsOccurs (pat : List Char) : List Char → Bool
  | [] => charsStartWith pat []
  | b :: bs => charsStartWith pat (b :: bs) || charsOccurs pat bs

/-- Rust's `str::contains(pattern)` for string patterns. -/
def strContains (s pat : String) : Bool := charsOccurs pat.data s.data

/-- The `wgpu::SurfaceError` values that `get_current_texture` can
return. -/
inductive SurfaceErr where
  | timeout
  | outdated
  | lost
  | outOfMemory
  deriving DecidableEq, Repr

/-- Display text of each `wgpu::SurfaceError` (what `e.to_string()`
yields). -/
def surfaceErrMsg : SurfaceErr → String
  | .timeout => "A timeout was encountered while trying to acquire the next frame"
  | .outdated => "The underlying surface has changed, and therefore the swap chain must be updated"
  | .lost => "The swap chain has been lost and needs to be recreated"
  | .outOfMemory => "There is no more memory left to allocate a new frame"

/-- Outcome of one `surface.get_current_texture()` attempt, supplied by
the environment: success, or failure with the error's display text. -/
inductive AcquireResult where
  | ok
  | err (msg : String)
  deriving DecidableEq, Repr

/-- The error-message test of `PreviewWindow::render` deciding whether to
reconfigure-and-retry. -/
def previewErrMatches (msg : String) : Bool :=
  strContains msg "surface has changed" ||
  strContains msg "swap chain must be updated" ||
  strContains msg "Timeout" ||
  strContains msg "outdated"

/-- State of a `PreviewWindow`: stored size, surface configuration
dimensions, flags, drawables and pending transforms. -/
structure PreviewSt (M : Type) where
  sizeW : ℕ
  sizeH : ℕ
  configWidth : ℕ
  configHeight : ℕ
  enabled : Bool
  isReady : Bool
  renderObjects : List (RenderObjectSt M)
  pendingTransforms : List M
  deriving DecidableEq, Repr

/-- Method `PreviewWindow::resize`: only strictly-positive dimensions take
effect; the returned flag records whether `surface.configure` ran. -/
def previewResize {M : Type} (st : PreviewSt M) (w h : ℕ) : PreviewSt M × Bool :=
  if 0 < w ∧ 0 < h then
    ({ st with sizeW := w, sizeH := h, configWidth := w, configHeight := h }, true)
  else (st, false)

/-- Method `PreviewWindow::update_scene`: store the transforms to be applied
during the next render call. -/
def previewUpdateScene {M : Type} (st : PreviewSt M) (transforms : List M) : PreviewSt M :=
  { st with pendingTransforms := transforms }

/-- Observable outcome of one `PreviewWindow::render` call. -/
structure PreviewRenderOut (M : Type) where
  state : PreviewSt M
  result : Except String Unit
  draws : List DrawCall
  reconfigured : List (ℕ × ℕ)
  acquireAttempts : ℕ
  presented : Bool

/-- Method `PreviewWindow::render`: skip when not ready or without objects;
apply pending transforms; record the scene pass draw calls; acquire the
surface texture, recovering once via `resize(window.inner_size())` when
the error text matches; blit and present on success.  `windowW/windowH`
are the window's current inner size; the two `AcquireResult`s are the
environment-supplied outcomes of the (at most two) acquire attempts. -/
def previewRender {M : Type} (st : PreviewSt M) (windowW windowH : ℕ)
    (firstAcquire secondAcquire : AcquireResult) : PreviewRenderOut M :=
  if st.isReady = false then ⟨st, .ok (), [], [], 0, false⟩
  else if st.renderObjects.isEmpty then ⟨st, .ok (), [], [], 0, false⟩
  else
    let objs := if st.pendingTransforms.isEmpty then st.renderObjects
                else applyPendingTransforms st.renderObjects st.pendingTransforms
    let st1 := { st with renderObjects := objs }
    let draws := sceneRender objs
    match firstAcquire with
    | .ok => ⟨st1, .ok (), draws, [], 1, true⟩
    | .err msg =>
      if previewErrMatches msg then
        let st2 := (previewResize st1 windowW windowH).1
        match secondAcquire with
        | .ok => ⟨st2, .ok (), draws, [(windowW, windowH)], 2, true⟩
        | .err m2 =>
            ⟨st2, .error ("Failed to acquire surface texture after reconfigure: " ++ m2),
              draws, [(windowW, windowH)], 2, false⟩
      else ⟨st1, .error ("Failed to acquire surface texture: " ++ msg), draws, [], 1, false⟩

/-! ### Primary output (`renderer.rs` in `vibevj-engine`, `app.rs`) -/

/-- State of the primary `Renderer`: stored size and surface
configuration (the configuration's non-dimension fields are abstracted as
`format`). -/
structure RendererSt where
  sizeW : ℕ
  sizeH : ℕ
  configWidth : ℕ
  configHeight : ℕ
  format : ℕ
  deriving DecidableEq, Repr

/-- Method `Renderer::resize`: only strictly-positive dimensions take effect;
the returned flag records whether `surface.configure` ran. -/
def rendererResize (st : RendererSt) (w h : ℕ) : RendererSt × Bool :=
  if 0 < w ∧ 0 < h then
    ({ st with sizeW := w, sizeH := h, configWidth := w, configHeight := h }, true)
  else (st, false)

/-- Method `Renderer::get_current_texture` wraps a surface error as
`VibeVJError::RenderError(format!("Failed to acquire surface texture: {}", e))`,
whose display text is the following. -/
def rendererAcquireErrMsg (msg : String) : String :=
  "Render error: " ++ ("Failed to acquire surface texture: " ++ msg)

/-- The error-message test of `VibeVJApp::render` deciding whether to
reconfigure-and-retry. -/
def mainErrMatches (msg : String) : Bool :=
  strContains msg "surface has changed" ||
  strContains msg "swap chain must be updated" ||
  strContains msg "Timeout"

/-- Observable outcome of the surface-acquire portion of
`VibeVJApp::render`. -/
structure MainRenderOut where
  state : RendererSt
  result : Except String Unit
  reconfigured : List (ℕ × ℕ)
  acquireAttempts : ℕ

/-- The surface-acquire step of `VibeVJApp::render` (`app.rs` lines
328–344): on failure, if the wrapped error text matches, reconfigure via
`renderer.resize(window.inner_size())` and retry exactly once, else
return the error. -/
def vibeRenderAcquire (st : RendererSt) (windowW windowH : ℕ)
    (firstAcquire secondAcquire : AcquireResult) : MainRenderOut :=
  match firstAcquire with
  | .ok => ⟨st, .ok (), [], 1⟩
  | .err msg =>
    let emsg := rendererAcquireErrMsg msg
    if mainErrMatches emsg then
      let st2 := (rendererResize st windowW windowH).1
      match secondAcquire with
      | .ok => ⟨st2, .ok (), [(windowW, windowH)], 2⟩
      | .err m2 => ⟨st2, .error (rendererAcquireErrMsg m2), [(windowW, windowH)], 2⟩
    else ⟨st, .error emsg, [], 1⟩

/-! ### Render target (`render_target.rs`) -/

/-- State of a `RenderTarget`: the two GPU images and their views as
opaque allocation identifiers, plus dimensions and color format. -/
structure RenderTargetSt where
  textureId : ℕ
  viewId : ℕ
  depthTextureId : ℕ
  depthViewId : ℕ
  width : ℕ
  height : ℕ
  format : ℕ
  deriving DecidableEq, Repr

/-- Constructor `RenderTarget::new`: allocate a fresh color texture and view and a
fresh depth texture and view on the device.  `alloc` is the device's
allocation counter; each created GPU object consumes one fresh
identifier, and the advanced counter is returned. -/
def renderTargetNew (alloc : ℕ) (w h fmt : ℕ) : RenderTargetSt × ℕ :=
  (⟨alloc, alloc + 1, alloc + 2, alloc + 3, w, h, fmt⟩, alloc + 4)

/-- Method `RenderTarget::resize`: early-return when the dimensions are
unchanged; otherwise replace the whole target by
`Self::new(device, width, height, self.format, ..)`. -/
def renderTargetResize (st : RenderTargetSt) (alloc : ℕ) (w h : ℕ) :
    RenderTargetSt × ℕ :=
  if st.width = w ∧ st.height = h then (st, alloc)
  else renderTargetNew alloc w h st.format

/-! ### Camera (`camera.rs`, matrix math from `glam`) -/

/-- Scalar multiple of a vector. -/
def vscale (a : ℚ) (v : V3) : V3 := ⟨a * v.x, a * v.y, a * v.z⟩

/-- Function `glam::Vec3::normalize`: the vector times the reciprocal of its
length; `sqrtf` stands for the `f32` square root. -/
def vnormalize (sqrtf : ℚ → ℚ) (v : V3) : V3 := vscale (1 / sqrtf (vdot v v)) v

/-- A 4-vector as a function on `Fin 4`. -/
def vec4 (x y z w : ℚ) : Fin 4 → ℚ := ![x, y, z, w]

/-- Function `glam::Mat4::from_cols`: a column-major 4×4 matrix from its four
columns. -/
def mat4FromCols (c0 c1 c2 c3 : Fin 4 → ℚ) : Matrix (Fin 4) (Fin 4) ℚ :=
  Matrix.of fun i j => ![c0, c1, c2, c3] j i

/-- Function `glam::Mat4::look_to_rh`. -/
def lookToRh (sqrtf : ℚ → ℚ) (eye dir up : V3) : Matrix (Fin 4) (Fin 4) ℚ :=
  let f := vnormalize sqrtf dir
  let s := vnormalize sqrtf (vcross f up)
  let u := vcross s f
  mat4FromCols
    (vec4 s.x u.x (-f.x) 0)
    (vec4 s.y u.y (-f.y) 0)
    (vec4 s.z u.z (-f.z) 0)
    (vec4 (-(vdot eye s)) (-(vdot eye u)) (vdot eye f) 1)

/-- Function `glam::Mat4::look_at_rh`. -/
def lookAtRh (sqrtf : ℚ → ℚ) (eye center up : V3) : Matrix (Fin 4) (Fin 4) ℚ :=
  lookToRh sqrtf eye (vsub center eye) up

/-- Function `glam::Mat4::perspective_rh`; `sinf`/`cosf` stand for the `f32`
`sin_cos`. -/
def perspectiveRh (sinf cosf : ℚ → ℚ) (fov_y aspect z_near z_far : ℚ) :
    Matrix (Fin 4) (Fin 4) ℚ :=
  let sin_fov := sinf (0.5 * fov_y)
  let cos_fov := cosf (0.5 * fov_y)
  let h := cos_fov / sin_fov
  let w := h / aspect
  let r := z_far / (z_near - z_far)
  mat4FromCols (vec4 w 0 0 0) (vec4 0 h 0 0) (vec4 0 0 r (-1)) (vec4 0 0 (r * z_near) 0)

/-- Fields of `Camera` from `camera.rs`. -/
structure Camera where
  position : V3
  target : V3
  up : V3
  fov : ℚ
  aspect : ℚ
  near : ℚ
  far : ℚ

/-- Method `Camera::view_matrix`: `Mat4::look_at_rh(position, target, up)`. -/
def Camera.view_matrix (sqrtf : ℚ → ℚ) (c : Camera) : Matrix (Fin 4) (Fin 4) ℚ :=
  lookAtRh sqrtf c.position c.target c.up

/-- Method `Camera::projection_matrix`:
`Mat4::perspective_rh(fov, aspect, near, far)`. -/
def Camera.projection_matrix (sinf cosf : ℚ → ℚ) (c : Camera) :
    Matrix (Fin 4) (Fin 4) ℚ :=
  perspectiveRh sinf cosf c.fov c.aspect c.near c.far

/-- Method `Camera::view_projection_matrix`:
`self.projection_matrix() * self.view_matrix()`. -/
def Camera.view_projection_matrix (sqrtf sinf cosf : ℚ → ℚ) (c : Camera) :
    Matrix (Fin 4) (Fin 4) ℚ :=
  Camera.projection_matrix sinf cosf c * Camera.view_matrix sqrtf c

/-! ## Helper lemmas -/

/-- Length of a `flatMap` over `range` with constant block length. -/
theorem length_flatMap_range {α : Type} (c : ℕ) (f : ℕ → List α)
    (h : ∀ i, (f i).length = c) : ∀ n, ((List.range n).flatMap f).length = n * c := by
  intro n
  induction n with
  | zero => simp
  | succ k ih =>
    rw [List.range_succ, List.flatMap_append]
    simp [ih, h, Nat.succ_mul]

/-- Vertex count of the sphere generator. -/
theorem sphereVertices_length (sinf cosf : ℚ → ℚ) (pv radius : ℚ)
    (segments rings : ℕ) :
    (sphereVertices sinf cosf pv radius segments rings).length =
      (rings + 1) * (segments + 1) := by
  apply length_flatMap_range
  intro i
  simp

/-- Index count of the sphere generator. -/
theorem sphereIndices_length (segments rings : ℕ) :
    (sphereIndices segments rings).length = rings * (segments * 6) := by
  apply length_flatMap_range
  intro i
  apply length_flatMap_range
  intro j
  rfl

/-- Every sphere index is below the sphere's vertex count. -/
theorem sphereIndices_lt (segments rings : ℕ) :
    ∀ i ∈ sphereIndices segments rings, i < (rings + 1) * (segments + 1) := by
  intro i hi
  simp only [sphereIndices, List.mem_flatMap, List.mem_range] at hi
  obtain ⟨ring, hring, hi⟩ := hi
  obtain ⟨segment, hseg, hi⟩ := hi
  have key : (ring + 1) * (segments + 1) ≤ rings * (segments + 1) :=
    Nat.mul_le_mul_right _ hring
  rw [add_mul, one_mul] at key
  rw [add_mul, one_mul]
  set A := ring * (segments + 1) with hA
  set B := rings * (segments + 1) with hB
  simp only [List.mem_cons, List.not_mem_nil, or_false] at hi
  rcases hi with rfl | rfl | rfl | rfl | rfl | rfl <;> omega

/-- Vertex count of the plane generator. -/
theorem planeVertices_length (width height : ℚ) (sx sy : ℕ) :
    (planeVertices width height sx sy).length = (sy + 1) * (sx + 1) := by
  apply length_flatMap_range
  intro i
  simp

/-- Index count of the plane generator. -/
theorem planeIndices_length (sx sy : ℕ) :
    (planeIndices sx sy).length = sy * (sx * 6) := by
  apply length_flatMap_range
  intro i
  apply length_flatMap_range
  intro j
  rfl

/-- Every plane index is below the plane's vertex count. -/
theorem planeIndices_lt (sx sy : ℕ) :
    ∀ i ∈ planeIndices sx sy, i < (sy + 1) * (sx + 1) := by
  intro i hi
  simp only [planeIndices, List.mem_flatMap, List.mem_range] at hi
  obtain ⟨y, hy, hi⟩ := hi
  obtain ⟨x, hx, hi⟩ := hi
  have key : (y + 1) * (sx + 1) ≤ sy * (sx + 1) := Nat.mul_le_mul_right _ hy
  rw [add_mul, one_mul] at key
  rw [add_mul, one_mul]
  set A := y * (sx + 1) with hA
  set B := sy * (sx + 1) with hB
  simp only [List.mem_cons, List.not_mem_nil, or_false] at hi
  rcases hi with rfl | rfl | rfl | rfl | rfl | rfl <;> omega

/-- Vertex count of the cylinder generator (side rings plus the two cap
centers). -/
theorem create_cylinder_vertices_length (sinf cosf : ℚ → ℚ)
    (pv radius height : ℚ) (segments : ℕ) :
    (create_cylinder sinf cosf pv radius height segments).vertices.length =
      2 * (segments + 1) + 2 := by
  simp only [create_cylinder, List.length_append]
  have h : (cylinderSideVertices sinf cosf pv radius height segments).length =
      2 * (segments + 1) := by
    apply length_flatMap_range
    intro i
    simp
  simp [h]

/-- Index count of the cylinder generator. -/
theorem cylinderIndices_length (segments : ℕ) :
    (cylinderIndices segments).length = segments * 6 := by
  apply length_flatMap_range
  intro i
  rfl

/-- Every cylinder index is below the cylinder's vertex count. -/
theorem cylinderIndices_lt (segments : ℕ) :
    ∀ i ∈ cylinderIndices segments, i < 2 * (segments + 1) + 2 := by
  intro i hi
  simp only [cylinderIndices, List.mem_flatMap, List.mem_range] at hi
  obtain ⟨segment, hseg, hi⟩ := hi
  simp only [List.mem_cons, List.not_mem_nil, or_false] at hi
  rcases hi with rfl | rfl | rfl | rfl | rfl | rfl <;> omega

/-! ## Claims -/

/-- C1: evaluation of `create_plane(1.0, 1.0, 1, 1)` at its first emitted
triangle `(0, 2, 1)` (and its second, `(1, 2, 3)`): the cross product
`(v_b - v_a) × (v_c - v_a)` dotted with the vertices' stored outward
normal `(0, 0, 1)` is `-1 < 0`, i.e. the triangle winds clockwise when
viewed along the outward normal — against the spec's counter-clockwise
winding contract (and against the repository's own pipeline, which culls
non-CCW faces). -/
theorem create_plane_winding_failure :
    (create_plane 1 1 1 1).indices = [0, 2, 1, 1, 2, 3] ∧
    windingDot (create_plane 1 1 1 1) 0 2 1 = -1 ∧
    windingDot (create_plane 1 1 1 1) 1 2 3 = -1 ∧
    ¬ 0 < windingDot (create_plane 1 1 1 1) 0 2 1 := by
  have h1 : windingDot (create_plane 1 1 1 1) 0 2 1 = -1 := by
    simp only [windingDot, create_plane, planeVertices, planeIndices, vsub, vcross,
      vdot, Vertex.new, List.range_succ, List.range_zero]
    norm_num
  have h2 : windingDot (create_plane 1 1 1 1) 1 2 3 = -1 := by
    simp only [windingDot, create_plane, planeVertices, planeIndices, vsub, vcross,
      vdot, Vertex.new, List.range_succ, List.range_zero]
    norm_num
  refine ⟨by decide, h1, h2, by rw [h1]; norm_num⟩

/-- C4: for each supported shape generator with positive shape
parameters, the returned geometry has a positive vertex count, a
positive index count, and every index strictly below the vertex count. -/
theorem shape_generators_geometry_invariant :
    (∀ size : ℚ, 0 < size →
      0 < (create_cube size).vertices.length ∧
      0 < (create_cube size).indices.length ∧
      ∀ i ∈ (create_cube size).indices, i < (create_cube size).vertices.length) ∧
    (∀ (sinf cosf : ℚ → ℚ) (pv radius : ℚ) (segments rings : ℕ),
      0 < radius → 1 ≤ segments → 1 ≤ rings →
      0 < (create_sphere sinf cosf pv radius segments rings).vertices.length ∧
      0 < (create_sphere sinf cosf pv radius segments rings).indices.length ∧
      ∀ i ∈ (create_sphere sinf cosf pv radius segments rings).indices,
        i < (create_sphere sinf cosf pv radius segments rings).vertices.length) ∧
    (∀ (width height : ℚ) (sx sy : ℕ),
      0 < width → 0 < height → 1 ≤ sx → 1 ≤ sy →
      0 < (create_plane width height sx sy).vertices.length ∧
      0 < (create_plane width height sx sy).indices.length ∧
      ∀ i ∈ (create_plane width height sx sy).indices,
        i < (create_plane width height sx sy).vertices.length) ∧
    (∀ (sinf cosf : ℚ → ℚ) (pv radius height : ℚ) (segments : ℕ),
      0 < radius → 0 < height → 1 ≤ segments →
      0 < (create_cylinder sinf cosf pv radius height segments).vertices.length ∧
      0 < (create_cylinder sinf cosf pv radius height segments).indices.length ∧
      ∀ i ∈ (create_cylinder sinf cosf pv radius height segments).indices,
        i < (create_cylinder sinf cosf pv radius height segments).vertices.length) := by
  refine ⟨?_, ?_, ?_, ?_⟩
  · intro size _
    have hv : (create_cube size).vertices.length = 24 := rfl
    have hx : (create_cube size).indices.length = 36 := rfl
    have hidx : (create_cube size).indices =
        [0, 1, 2, 2, 3, 0, 4, 5, 6, 6, 7, 4, 8, 9, 10, 10, 11, 8, 12, 13, 14,
         14, 15, 12, 16, 17, 18, 18, 19, 16, 20, 21, 22, 22, 23, 20] := rfl
    refine ⟨by rw [hv]; omega, by rw [hx]; omega, ?_⟩
    intro i hi
    rw [hidx] at hi
    rw [hv]
    revert i
    decide
  · intro sinf cosf pv radius segments rings _ hseg hring
    constructor
    · rw [create_sphere, sphereVertices_length]
      positivity
    constructor
    · show 0 < (sphereIndices segments rings).length
      rw [sphereIndices_length]
      have : 0 < segments * 6 := by omega
      exact Nat.mul_pos hring this
    · intro i hi
      rw [create_sphere] at hi ⊢
      rw [sphereVertices_length]
      exact sphereIndices_lt segments rings i hi
  · intro width height sx sy _ _ hx hy
    constructor
    · rw [create_plane, planeVertices_length]
      positivity
    constructor
    · show 0 < (planeIndices sx sy).length
      rw [planeIndices_length]
      have : 0 < sx * 6 := by omega
      exact Nat.mul_pos hy this
    · intro i hi
      rw [create_plane] at hi ⊢
      rw [planeVertices_length]
      exact planeIndices_lt sx sy i hi
  · intro sinf cosf pv radius height segments _ _ hseg
    constructor
    · rw [create_cylinder_vertices_length]
      omega
    constructor
    · show 0 < (cylinderIndices segments).length
      rw [cylinderIndices_length]
      omega
    · intro i hi
      rw [create_cylinder_vertices_length]
      exact cylinderIndices_lt segments i hi

/-- Witness for C4: the invariant at concrete positive parameters —
cube of size 1, sphere (radius 1, 2 segments, 2 rings), plane
(1 × 1, 1 × 1 subdivisions), cylinder (radius 1, height 2,
3 segments). -/
theorem shape_generators_geometry_invariant_witness :
    ((0:ℚ) < 1 ∧ 1 ≤ 2 ∧ 1 ≤ 3) ∧
    (0 < (create_cube (1:ℚ)).vertices.length ∧
      0 < (create_cube (1:ℚ)).indices.length ∧
      ∀ i ∈ (create_cube (1:ℚ)).indices, i < (create_cube (1:ℚ)).vertices.length) ∧
    (0 < (create_sphere (fun _ => 0) (fun _ => 0) 3 1 2 2).vertices.length ∧
      0 < (create_sphere (fun _ => 0) (fun _ => 0) 3 1 2 2).indices.length ∧
      ∀ i ∈ (create_sphere (fun _ => 0) (fun _ => 0) 3 1 2 2).indices,
        i < (create_sphere (fun _ => 0) (fun _ => 0) 3 1 2 2).vertices.length) ∧
    (0 < (create_plane 1 1 1 1).vertices.length ∧
      0 < (create_plane 1 1 1 1).indices.length ∧
      ∀ i ∈ (create_plane 1 1 1 1).indices,
        i < (create_plane 1 1 1 1).vertices.length) ∧
    (0 < (create_cylinder (fun _ => 0) (fun _ => 0) 3 1 2 3).vertices.length ∧
      0 < (create_cylinder (fun _ => 0) (fun _ => 0) 3 1 2 3).indices.length ∧
      ∀ i ∈ (create_cylinder (fun _ => 0) (fun _ => 0) 3 1 2 3).indices,
        i < (create_cylinder (fun _ => 0) (fun _ => 0) 3 1 2 3).vertices.length) :=
  ⟨⟨by norm_num, by omega, by omega⟩,
    shape_generators_geometry_invariant.1 1 (by norm_num),
    shape_generators_geometry_invariant.2.1 (fun _ => 0) (fun _ => 0) 3 1 2 2
      (by norm_num) (by omega) (by omega),
    shape_generators_geometry_invariant.2.2.1 1 1 1 1
      (by norm_num) (by norm_num) (by omega) (by omega),
    shape_generators_geometry_invariant.2.2.2 (fun _ => 0) (fun _ => 0) 3 1 2 3
      (by norm_num) (by norm_num) (by omega)⟩

/-- C7: `create_cube 1.0` yields exactly 24 vertices and 36 indices, and
its front-face (+Z) vertices sit at `x = ±0.5`, `y = ±0.5`, `z = 0.5`. -/
theorem create_cube_unit_scenario :
    (create_cube 1).vertices.length = 24 ∧
    (create_cube 1).indices.length = 36 ∧
    ((create_cube 1).vertices.take 4).map (fun v => v.position) =
      [⟨-(1/2), -(1/2), 1/2⟩, ⟨1/2, -(1/2), 1/2⟩,
       ⟨1/2, 1/2, 1/2⟩, ⟨-(1/2), 1/2, 1/2⟩] := by
  refine ⟨by decide, by decide, ?_⟩
  simp only [create_cube, Vertex.new, List.take, List.map]

/-- C6: `RenderTarget::resize` at the current dimensions returns the
target untouched and allocates nothing (the device allocation counter is
unchanged); at any other dimensions it rebuilds the whole target — four
freshly-allocated GPU objects (color texture and view, depth texture and
view, all distinct from the old ones, given that the old identifiers were
allocated earlier, i.e. are below the counter) at the new dimensions,
keeping the color format. -/
theorem renderTarget_resize_spec :
    (∀ (st : RenderTargetSt) (alloc : ℕ),
      renderTargetResize st alloc st.width st.height = (st, alloc)) ∧
    (∀ (st : RenderTargetSt) (alloc w h : ℕ),
      ¬(st.width = w ∧ st.height = h) →
      st.textureId < alloc → st.viewId < alloc →
      st.depthTextureId < alloc → st.depthViewId < alloc →
      (renderTargetResize st alloc w h).2 = alloc + 4 ∧
      (renderTargetResize st alloc w h).1.width = w ∧
      (renderTargetResize st alloc w h).1.height = h ∧
      (renderTargetResize st alloc w h).1.format = st.format ∧
      (renderTargetResize st alloc w h).1.textureId ≠ st.textureId ∧
      (renderTargetResize st alloc w h).1.viewId ≠ st.viewId ∧
      (renderTargetResize st alloc w h).1.depthTextureId ≠ st.depthTextureId ∧
      (renderTargetResize st alloc w h).1.depthViewId ≠ st.depthViewId) := by
  constructor
  · intro st alloc
    simp [renderTargetResize]
  · intro st alloc w h hne h1 h2 h3 h4
    rw [renderTargetResize, if_neg hne, renderTargetNew]
    refine ⟨rfl, rfl, rfl, rfl, ?_, ?_, ?_, ?_⟩ <;> simp <;> omega

/-- Witness for C6: resizing a concrete 4×3 target to 8×6 with
allocation counter 10 (old identifiers 0–3). -/
theorem renderTarget_resize_spec_witness :
    ((⟨0, 1, 2, 3, 4, 3, 7⟩ : RenderTargetSt).width = 4 ∧
      ¬((4:ℕ) = 8 ∧ (3:ℕ) = 6) ∧ (0:ℕ) < 10 ∧ (1:ℕ) < 10 ∧ (2:ℕ) < 10 ∧ (3:ℕ) < 10) ∧
    renderTargetResize ⟨0, 1, 2, 3, 4, 3, 7⟩ 10 4 3 = (⟨0, 1, 2, 3, 4, 3, 7⟩, 10) ∧
    ((renderTargetResize ⟨0, 1, 2, 3, 4, 3, 7⟩ 10 8 6).2 = 10 + 4 ∧
      (renderTargetResize ⟨0, 1, 2, 3, 4, 3, 7⟩ 10 8 6).1.width = 8 ∧
      (renderTargetResize ⟨0, 1, 2, 3, 4, 3, 7⟩ 10 8 6).1.height = 6 ∧
      (renderTargetResize ⟨0, 1, 2, 3, 4, 3, 7⟩ 10 8 6).1.format =
        (⟨0, 1, 2, 3, 4, 3, 7⟩ : RenderTargetSt).format ∧
      (renderTargetResize ⟨0, 1, 2, 3, 4, 3, 7⟩ 10 8 6).1.textureId ≠ 0 ∧
      (renderTargetResize ⟨0, 1, 2, 3, 4, 3, 7⟩ 10 8 6).1.viewId ≠ 1 ∧
      (renderTargetResize ⟨0, 1, 2, 3, 4, 3, 7⟩ 10 8 6).1.depthTextureId ≠ 2 ∧
      (renderTargetResize ⟨0, 1, 2, 3, 4, 3, 7⟩ 10 8 6).1.depthViewId ≠ 3) :=
  ⟨⟨rfl, by decide, by decide, by decide, by decide, by decide⟩,
    renderTarget_resize_spec.1 ⟨0, 1, 2, 3, 4, 3, 7⟩ 10,
    renderTarget_resize_spec.2 ⟨0, 1, 2, 3, 4, 3, 7⟩ 10 8 6 (by decide)
      (by decide) (by decide) (by decide) (by decide)⟩

/-- C9: for both Outputs, `resize` with a zero dimension leaves the
stored size and the surface configuration unchanged and performs no
`surface.configure` call (returned flag `false`); with both dimensions
positive it stores the new size, updates the configuration dimensions
(other configuration fields untouched) and configures once. -/
theorem output_resize_zero_is_noop :
    (∀ (st : RendererSt) (w h : ℕ), w = 0 ∨ h = 0 →
      rendererResize st w h = (st, false)) ∧
    (∀ (st : RendererSt) (w h : ℕ), 0 < w → 0 < h →
      rendererResize st w h =
        ({ st with sizeW := w, sizeH := h, configWidth := w, configHeight := h }, true)) ∧
    (∀ (M : Type) (st : PreviewSt M) (w h : ℕ), w = 0 ∨ h = 0 →
      previewResize st w h = (st, false)) ∧
    (∀ (M : Type) (st : PreviewSt M) (w h : ℕ), 0 < w → 0 < h →
      previewResize st w h =
        ({ st with sizeW := w, sizeH := h, configWidth := w, configHeight := h }, true)) := by
  refine ⟨?_, ?_, ?_, ?_⟩
  · intro st w h hz
    rw [rendererResize, if_neg]
    omega
  · intro st w h hw hh
    rw [rendererResize, if_pos ⟨hw, hh⟩]
  · intro M st w h hz
    rw [previewResize, if_neg]
    omega
  · intro M st w h hw hh
    rw [previewResize, if_pos ⟨hw, hh⟩]

/-- Witness for C9: a zero-width resize of concrete states is the
identity and does not configure; an 8×6 resize takes effect. -/
theorem output_resize_zero_is_noop_witness :
    ((0:ℕ) = 0 ∨ (5:ℕ) = 0) ∧ ((0:ℕ) < 8 ∧ (0:ℕ) < 6) ∧
    rendererResize ⟨4, 3, 4, 3, 7⟩ 0 5 = (⟨4, 3, 4, 3, 7⟩, false) ∧
    rendererResize ⟨4, 3, 4, 3, 7⟩ 8 6 = (⟨8, 6, 8, 6, 7⟩, true) ∧
    previewResize (M := ℚ) ⟨4, 3, 4, 3, true, false, [], []⟩ 0 5 =
      (⟨4, 3, 4, 3, true, false, [], []⟩, false) ∧
    previewResize (M := ℚ) ⟨4, 3, 4, 3, true, false, [], []⟩ 8 6 =
      (⟨8, 6, 8, 6, true, false, [], []⟩, true) :=
  ⟨Or.inl rfl, ⟨by decide, by decide⟩,
    output_resize_zero_is_noop.1 ⟨4, 3, 4, 3, 7⟩ 0 5 (Or.inl rfl),
    output_resize_zero_is_noop.2.1 ⟨4, 3, 4, 3, 7⟩ 8 6 (by decide) (by decide),
    output_resize_zero_is_noop.2.2.1 ℚ ⟨4, 3, 4, 3, true, false, [], []⟩ 0 5 (Or.inl rfl),
    output_resize_zero_is_noop.2.2.2 ℚ ⟨4, 3, 4, 3, true, false, [], []⟩ 8 6
      (by decide) (by decide)⟩

/-- C8: for every camera (and any realization of the `f32`
transcendental operations), `view_projection_matrix` is exactly the
matrix product `projection_matrix * view_matrix`. -/
theorem camera_view_projection_is_product (sqrtf sinf cosf : ℚ → ℚ) (c : Camera) :
    Camera.view_projection_matrix sqrtf sinf cosf c =
      Camera.projection_matrix sinf cosf c * Camera.view_matrix sqrtf c := rfl

/-! ## Scene-renderer and preview lemmas -/

/-- The scene-render fold, for any accumulator, appends one draw call per
uploaded drawable in order. -/
theorem sceneRender_go {M : Type} (objs : List (RenderObjectSt M)) :
    ∀ acc : List DrawCall,
      objs.foldl (fun acc o =>
        match o.vertexBuffer, o.indexBuffer, o.modelBindGroup, o.materialBindGroup with
        | some _, some _, some _, some _ => acc ++ [⟨0, o.mesh.indices.length⟩]
        | _, _, _, _ => acc) acc =
      acc ++ (objs.filter objUploaded).map (fun o => ⟨0, o.mesh.indices.length⟩) := by
  induction objs with
  | nil => simp
  | cons o rest ih =>
    intro acc
    simp only [List.foldl_cons, List.filter_cons]
    rcases hv : o.vertexBuffer with _ | v <;> rcases hi : o.indexBuffer with _ | i <;>
      rcases hm : o.modelBindGroup with _ | m <;>
      rcases hb : o.materialBindGroup with _ | b <;>
      simp [objUploaded, hv, hi, hm, hb, ih, List.append_assoc]

/-- A fully-uploaded demonstration drawable (unit cube, all six GPU
fields present). -/
def demoUploaded : RenderObjectSt ℚ :=
  { mesh := create_cube 1, material := 0, transform := 0,
    vertexBuffer := some 0, indexBuffer := some 1, materialBuffer := some 2,
    modelBuffer := some (3, 0), materialBindGroup := some 4, modelBindGroup := some 5 }

/-- A not-yet-uploaded demonstration drawable (unit cube, no GPU
fields). -/
def demoUnloaded : RenderObjectSt ℚ :=
  { mesh := create_cube 1, material := 0, transform := 0,
    vertexBuffer := none, indexBuffer := none, materialBuffer := none,
    modelBuffer := none, materialBindGroup := none, modelBindGroup := none }

/-- C3: a scene-render pass issues exactly the draw calls of the
drawables whose vertex buffer, index buffer, model bind group and
material bind group are all present — one indexed draw per such
drawable, covering `0..mesh.indices.len()`, in list order; all other
drawables are skipped.  In particular one fully-uploaded and one
not-yet-uploaded drawable yield exactly one draw call. -/
theorem sceneRender_one_draw_per_uploaded :
    (∀ (M : Type) (objs : List (RenderObjectSt M)),
      sceneRender objs =
        (objs.filter objUploaded).map (fun o => ⟨0, o.mesh.indices.length⟩)) ∧
    (∀ (M : Type) (objs : List (RenderObjectSt M)),
      (sceneRender objs).length = (objs.filter objUploaded).length) ∧
    sceneRender [demoUploaded, demoUnloaded] = [⟨0, 36⟩] ∧
    (sceneRender [demoUploaded, demoUnloaded]).length = 1 := by
  have hmain : ∀ (M : Type) (objs : List (RenderObjectSt M)),
      sceneRender objs =
        (objs.filter objUploaded).map (fun o => ⟨0, o.mesh.indices.length⟩) := by
    intro M objs
    rw [sceneRender]
    simpa using sceneRender_go objs []
  refine ⟨hmain, ?_, ?_, ?_⟩
  · intro M objs
    rw [hmain, List.length_map]
  · rw [hmain]
    decide
  · rw [hmain]
    decide

/-- Update via `listUpdate` preserves length. -/
theorem listUpdate_length {α : Type _} (f : α → α) :
    ∀ (l : List α) (i : ℕ), (listUpdate f l i).length = l.length := by
  intro l
  induction l with
  | nil => intro i; rfl
  | cons a as ih =>
    intro i
    cases i with
    | zero => rfl
    | succ n => simp [listUpdate, ih]

/-- Update via `listUpdate` applies `f` at the updated position. -/
theorem listUpdate_getD_self {α : Type _} (f : α → α) (d : α) :
    ∀ (l : List α) (i : ℕ), i < l.length →
      (listUpdate f l i).getD i d = f (l.getD i d) := by
  intro l
  induction l with
  | nil => intro i h; simp at h
  | cons a as ih =>
    intro i h
    cases i with
    | zero => rfl
    | succ n =>
      simp only [listUpdate, List.getD_cons_succ]
      exact ih n (by simpa using h)

/-- Update via `listUpdate` leaves every other position unchanged. -/
theorem listUpdate_getD_ne {α : Type _} (f : α → α) (d : α) :
    ∀ (l : List α) (i j : ℕ), j ≠ i →
      (listUpdate f l i).getD j d = l.getD j d := by
  intro l
  induction l with
  | nil => intro i j _; rfl
  | cons a as ih =>
    intro i j hne
    cases i with
    | zero =>
      cases j with
      | zero => exact absurd rfl hne
      | succ m => rfl
    | succ n =>
      cases j with
      | zero => rfl
      | succ m =>
        simp only [listUpdate, List.getD_cons_succ]
        exact ih n m (by omega)

/-- The pending-transform loop preserves the drawable-list length. -/
theorem applyLoop_length {M : Type} :
    ∀ (ps : List (ℕ × M)) (objs : List (RenderObjectSt M)),
      (applyLoop ps objs).length = objs.length := by
  intro ps
  induction ps with
  | nil => intro objs; rfl
  | cons p rest ih =>
    intro objs
    obtain ⟨i, t⟩ := p
    rw [applyLoop, ih]
    split
    · exact listUpdate_length _ objs i
    · rfl

/-- Element-wise description of the pending-transform loop over an
enumerated transform list: position `j` is updated with transform
`j - n` when `n ≤ j < n + ts.length`, and untouched otherwise. -/
theorem applyLoop_enumFrom_getD {M : Type} (d : RenderObjectSt M) (dM : M)
    (ts : List M) :
    ∀ (n : ℕ) (objs : List (RenderObjectSt M)) (j : ℕ), j < objs.length →
      (applyLoop (List.enumFrom n ts) objs).getD j d =
        if n ≤ j ∧ j < n + ts.length
        then updateTransform (objs.getD j d) (ts.getD (j - n) dM)
        else objs.getD j d := by
  induction ts with
  | nil =>
    intro n objs j hj
    simp only [List.length_nil, Nat.add_zero]
    rw [if_neg (by omega)]
    rfl
  | cons t rest ih =>
    intro n objs j hj
    have hstep : applyLoop (List.enumFrom n (t :: rest)) objs =
        applyLoop (List.enumFrom (n + 1) rest)
          (if n < objs.length then listUpdate (fun o => updateTransform o t) objs n
           else objs) := rfl
    rw [hstep]
    set objs1 := (if n < objs.length then listUpdate (fun o => updateTransform o t) objs n
      else objs) with hobjs1
    have hlen1 : objs1.length = objs.length := by
      rw [hobjs1]
      split
      · exact listUpdate_length _ objs n
      · rfl
    have hj1 : j < objs1.length := by omega
    rw [ih (n + 1) objs1 j hj1]
    by_cases hcase : n + 1 ≤ j ∧ j < n + 1 + rest.length
    · rw [if_pos hcase, if_pos (by simp only [List.length_cons]; omega)]
      have hobjs1j : objs1.getD j d = objs.getD j d := by
        rw [hobjs1]
        split
        · exact listUpdate_getD_ne _ _ objs n j (by omega)
        · rfl
      rw [hobjs1j]
      have hsub : j - n = (j - (n + 1)) + 1 := by omega
      rw [hsub, List.getD_cons_succ]
    · rw [if_neg hcase]
      by_cases hj0 : j = n
      · subst hj0
        rw [if_pos (by simp only [List.length_cons]; omega)]
        have : objs1.getD j d = updateTransform (objs.getD j d) t := by
          rw [hobjs1, if_pos hj]
          exact listUpdate_getD_self _ _ objs j hj
        rw [this, Nat.sub_self, List.getD_cons_zero]
      · rw [if_neg (by simp only [List.length_cons]; omega)]
        rw [hobjs1]
        split
        · exact listUpdate_getD_ne _ _ objs n j (by omega)
        · rfl

/-- Element-wise description of `applyPendingTransforms`. -/
theorem applyPendingTransforms_getD {M : Type} (d : RenderObjectSt M) (dM : M)
    (objs : List (RenderObjectSt M)) (ts : List M) (j : ℕ) (hj : j < objs.length) :
    (applyPendingTransforms objs ts).getD j d =
      if j < ts.length then updateTransform (objs.getD j d) (ts.getD j dM)
      else objs.getD j d := by
  rw [applyPendingTransforms]
  have h := applyLoop_enumFrom_getD d dM ts 0 objs j hj
  rw [show List.enumFrom 0 ts = ts.enum from rfl] at h
  rw [h]
  by_cases hc : j < ts.length
  · rw [if_pos (by omega), if_pos hc, Nat.sub_zero]
  · rw [if_neg (by omega), if_neg hc]

/-- Application of `applyPendingTransforms` preserves the drawable-list length. -/
theorem applyPendingTransforms_length {M : Type}
    (objs : List (RenderObjectSt M)) (ts : List M) :
    (applyPendingTransforms objs ts).length = objs.length :=
  applyLoop_length ts.enum objs

/-- Field-wise description of `update_transform`: the transform is
replaced, the model uniform buffer keeps its identity and receives the
new matrix, and every other field is untouched. -/
theorem updateTransform_fields {M : Type} (o : RenderObjectSt M) (t : M) :
    (updateTransform o t).transform = t ∧
    (updateTransform o t).modelBuffer = Option.map (fun p => (p.1, t)) o.modelBuffer ∧
    (updateTransform o t).vertexBuffer = o.vertexBuffer ∧
    (updateTransform o t).indexBuffer = o.indexBuffer ∧
    (updateTransform o t).materialBuffer = o.materialBuffer ∧
    (updateTransform o t).materialBindGroup = o.materialBindGroup ∧
    (updateTransform o t).modelBindGroup = o.modelBindGroup ∧
    (updateTransform o t).mesh = o.mesh := by
  rcases hm : o.modelBuffer with _ | ⟨bufId, old⟩ <;>
    simp [updateTransform, hm]

/-- In the ready, objects-present, transforms-pending case, the drawable
list after `PreviewWindow::render` is the pending-transform application,
whatever the acquire outcomes. -/
theorem previewRender_state_renderObjects {M : Type} (st : PreviewSt M)
    (w h : ℕ) (a1 a2 : AcquireResult)
    (hready : st.isReady = true) (hne : st.renderObjects.isEmpty = false)
    (hp : st.pendingTransforms.isEmpty = false) :
    (previewRender st w h a1 a2).state.renderObjects =
      applyPendingTransforms st.renderObjects st.pendingTransforms := by
  cases a1 with
  | ok => simp [previewRender, hready, hne, hp]
  | err msg =>
    by_cases hm : previewErrMatches msg
    · cases a2 with
      | ok =>
        simp only [previewRender, hready, hne, hp, hm, previewResize]
        norm_num
        split <;> rfl
      | err m2 =>
        simp only [previewRender, hready, hne, hp, hm, previewResize]
        norm_num
        split <;> rfl
    · simp [previewRender, hready, hne, hp, hm]

/-- The drawable-list length is preserved by any `PreviewWindow::render`
call. -/
theorem previewRender_objects_length {M : Type} (st : PreviewSt M)
    (w h : ℕ) (a1 a2 : AcquireResult) :
    (previewRender st w h a1 a2).state.renderObjects.length =
      st.renderObjects.length := by
  rw [previewRender]
  by_cases hready : st.isReady = false
  · rw [if_pos hready]
  rw [if_neg hready]
  by_cases hne : st.renderObjects.isEmpty
  · rw [if_pos hne]
  rw [if_neg hne]
  have hlen : (if st.pendingTransforms.isEmpty then st.renderObjects
      else applyPendingTransforms st.renderObjects st.pendingTransforms).length =
      st.renderObjects.length := by
    split
    · rfl
    · exact applyPendingTransforms_length _ _
  cases a1 with
  | ok => exact hlen
  | err msg =>
    by_cases hm : previewErrMatches msg
    · simp only [hm, if_true]
      cases a2 with
      | ok =>
        simp only [previewResize]
        split <;> exact hlen
      | err m2 =>
        simp only [previewResize]
        split <;> exact hlen
    · simp only [hm, if_false]
      exact hlen

/-- C10: the pending-transform application of `PreviewWindow::render`
tolerates a transform list of any length: the drawable list keeps its
length, drawables at positions at or beyond the transform-list length
keep their previous state, transforms at positions beyond the drawable
count are ignored (the result only depends on the first
`drawable-count` transforms), and a full render call never changes the
drawable count, whatever the length mismatch. -/
theorem preview_transform_count_mismatch_tolerated :
    (∀ (M : Type) (objs : List (RenderObjectSt M)) (ts : List M),
      (applyPendingTransforms objs ts).length = objs.length) ∧
    (∀ (M : Type) (objs : List (RenderObjectSt M)) (ts : List M)
       (d : RenderObjectSt M) (j : ℕ), j < objs.length → ts.length ≤ j →
      (applyPendingTransforms objs ts).getD j d = objs.getD j d) ∧
    (∀ (M : Type) (objs : List (RenderObjectSt M)) (ts : List M),
      applyPendingTransforms objs ts = applyPendingTransforms objs (ts.take objs.length)) ∧
    (∀ (M : Type) (st : PreviewSt M) (w h : ℕ) (a1 a2 : AcquireResult),
      (previewRender st w h a1 a2).state.renderObjects.length =
        st.renderObjects.length) := by
  refine ⟨fun M objs ts => applyPendingTransforms_length objs ts, ?_, ?_,
    fun M st w h a1 a2 => previewRender_objects_length st w h a1 a2⟩
  · intro M objs ts d j hj hts
    rw [applyPendingTransforms_getD d d.transform objs ts j hj, if_neg (by omega)]
  · intro M objs ts
    rcases hobjs : objs with _ | ⟨o, rest⟩
    · have h1 := applyPendingTransforms_length ([] : List (RenderObjectSt M)) ts
      have h2 := applyPendingTransforms_length ([] : List (RenderObjectSt M))
        (ts.take (List.length ([] : List (RenderObjectSt M))))
      rw [List.eq_nil_of_length_eq_zero h1, List.eq_nil_of_length_eq_zero h2]
    · apply List.ext_getElem
      · rw [applyPendingTransforms_length, applyPendingTransforms_length]
      intro j h1 h2
      have hj : j < (o :: rest).length := by
        rw [applyPendingTransforms_length] at h1
        exact h1
      rw [← List.getD_eq_getElem _ o h1, ← List.getD_eq_getElem _ o h2,
        applyPendingTransforms_getD o o.transform _ _ j hj,
        applyPendingTransforms_getD o o.transform _ _ j hj]
      have htake : (ts.take (o :: rest).length).length =
          min ((o :: rest).length) ts.length := by
        rw [List.length_take]
      by_cases hc : j < ts.length
      · rw [if_pos hc, if_pos (by omega)]
        have : (ts.take (o :: rest).length).getD j o.transform =
            ts.getD j o.transform := by
          rw [List.getD_eq_getElem _ _ (by omega), List.getD_eq_getElem _ _ hc]
          exact List.getElem_take ts
        rw [this]
      · rw [if_neg hc, if_neg (by omega)]

/-- Witness for C10: two drawables, a single pending transform — the
second drawable keeps its previous state. -/
theorem preview_transform_count_mismatch_tolerated_witness :
    ((1:ℕ) < 2 ∧ (1:ℕ) ≤ 1) ∧
    (applyPendingTransforms
        [(⟨⟨[], []⟩, 0, 10, some 0, some 1, some 2, some (3, 10), some 4, some 5⟩ : RenderObjectSt ℕ),
         ⟨⟨[], []⟩, 0, 20, some 6, some 7, some 8, some (9, 20), some 10, some 11⟩]
        [99]).getD 1 ⟨⟨[], []⟩, 0, 0, none, none, none, none, none, none⟩ =
      [(⟨⟨[], []⟩, 0, 10, some 0, some 1, some 2, some (3, 10), some 4, some 5⟩ : RenderObjectSt ℕ),
         ⟨⟨[], []⟩, 0, 20, some 6, some 7, some 8, some (9, 20), some 10, some 11⟩].getD 1
        ⟨⟨[], []⟩, 0, 0, none, none, none, none, none, none⟩ :=
  ⟨⟨by decide, by decide⟩,
    preview_transform_count_mismatch_tolerated.2.1 ℕ
      [⟨⟨[], []⟩, 0, 10, some 0, some 1, some 2, some (3, 10), some 4, some 5⟩,
       ⟨⟨[], []⟩, 0, 20, some 6, some 7, some 8, some (9, 20), some 10, some 11⟩]
      [99] ⟨⟨[], []⟩, 0, 0, none, none, none, none, none, none⟩ 1
      (by decide) (by decide)⟩

/-- C5: `update_scene` only stores the transform list (touching no GPU
resource); `update_transform` overwrites the stored transform and writes
the matrix into the existing model buffer; and after the next render of
a preview Output whose scene is ready, drawable `i` (valid for both
lists) carries exactly `transforms[i]`, its model uniform buffer holds
exactly that matrix under its unchanged buffer identity, and no drawable
has any GPU buffer or bind group reallocated. -/
theorem update_scene_transforms_apply_positionally :
    (∀ (M : Type) (st : PreviewSt M) (ts : List M),
      (previewUpdateScene st ts).renderObjects = st.renderObjects ∧
      (previewUpdateScene st ts).pendingTransforms = ts) ∧
    (∀ (M : Type) (o : RenderObjectSt M) (t : M),
      (updateTransform o t).transform = t ∧
      (updateTransform o t).modelBuffer = Option.map (fun p => (p.1, t)) o.modelBuffer ∧
      (updateTransform o t).vertexBuffer = o.vertexBuffer ∧
      (updateTransform o t).indexBuffer = o.indexBuffer ∧
      (updateTransform o t).materialBuffer = o.materialBuffer ∧
      (updateTransform o t).materialBindGroup = o.materialBindGroup ∧
      (updateTransform o t).modelBindGroup = o.modelBindGroup ∧
      (updateTransform o t).mesh = o.mesh) ∧
    (∀ (M : Type) (st : PreviewSt M) (ts : List M) (w h : ℕ)
       (a1 a2 : AcquireResult) (d : RenderObjectSt M) (dM : M) (i : ℕ),
      st.isReady = true → i < ts.length → i < st.renderObjects.length →
      (((previewRender (previewUpdateScene st ts) w h a1 a2).state.renderObjects.getD i d).transform =
          ts.getD i dM) ∧
      (((previewRender (previewUpdateScene st ts) w h a1 a2).state.renderObjects.getD i d).modelBuffer =
          Option.map (fun p => (p.1, ts.getD i dM)) ((st.renderObjects.getD i d).modelBuffer)) ∧
      (∀ j : ℕ, j < st.renderObjects.length →
        ((previewRender (previewUpdateScene st ts) w h a1 a2).state.renderObjects.getD j d).vertexBuffer =
            (st.renderObjects.getD j d).vertexBuffer ∧
        ((previewRender (previewUpdateScene st ts) w h a1 a2).state.renderObjects.getD j d).indexBuffer =
            (st.renderObjects.getD j d).indexBuffer ∧
        ((previewRender (previewUpdateScene st ts) w h a1 a2).state.renderObjects.getD j d).materialBuffer =
            (st.renderObjects.getD j d).materialBuffer ∧
        Option.map Prod.fst
            ((previewRender (previewUpdateScene st ts) w h a1 a2).state.renderObjects.getD j d).modelBuffer =
            Option.map Prod.fst ((st.renderObjects.getD j d).modelBuffer) ∧
        ((previewRender (previewUpdateScene st ts) w h a1 a2).state.renderObjects.getD j d).materialBindGroup =
            (st.renderObjects.getD j d).materialBindGroup ∧
        ((previewRender (previewUpdateScene st ts) w h a1 a2).state.renderObjects.getD j d).modelBindGroup =
            (st.renderObjects.getD j d).modelBindGroup)) := by
  refine ⟨fun M st ts => ⟨rfl, rfl⟩, fun M o t => updateTransform_fields o t, ?_⟩
  intro M st ts w h a1 a2 d dM i hready hits hiobjs
  have hready' : (previewUpdateScene st ts).isReady = true := hready
  have hne : (previewUpdateScene st ts).renderObjects.isEmpty = false := by
    show st.renderObjects.isEmpty = false
    cases hobjs : st.renderObjects with
    | nil => rw [hobjs] at hiobjs; simp at hiobjs
    | cons a l => rfl
  have hp : (previewUpdateScene st ts).pendingTransforms.isEmpty = false := by
    show ts.isEmpty = false
    cases hts : ts with
    | nil => rw [hts] at hits; simp at hits
    | cons a l => rfl
  have hobjsEq := previewRender_state_renderObjects (previewUpdateScene st ts)
    w h a1 a2 hready' hne hp
  have hobjsEq' : (previewRender (previewUpdateScene st ts) w h a1 a2).state.renderObjects =
      applyPendingTransforms st.renderObjects ts := hobjsEq
  rw [hobjsEq']
  refine ⟨?_, ?_, ?_⟩
  · rw [applyPendingTransforms_getD d dM st.renderObjects ts i hiobjs, if_pos hits]
    exact (updateTransform_fields _ _).1
  · rw [applyPendingTransforms_getD d dM st.renderObjects ts i hiobjs, if_pos hits]
    exact (updateTransform_fields _ _).2.1
  · intro j hj
    rw [applyPendingTransforms_getD d dM st.renderObjects ts j hj]
    by_cases hc : j < ts.length
    · rw [if_pos hc]
      obtain ⟨_, h2, h3, h4, h5, h6, h7, _⟩ :=
        updateTransform_fields (st.renderObjects.getD j d) (ts.getD j dM)
      refine ⟨h3, h4, h5, ?_, h6, h7⟩
      rw [h2]
      cases (st.renderObjects.getD j d).modelBuffer <;> rfl
    · rw [if_neg hc]
      exact ⟨rfl, rfl, rfl, rfl, rfl, rfl⟩

/-- A sample ready drawable for witnesses: empty mesh, all GPU handles
present, model buffer 3 holding transform 10. -/
def sampleObj : RenderObjectSt ℕ :=
  ⟨⟨[], []⟩, 0, 10, some 0, some 1, some 2, some (3, 10), some 4, some 5⟩

/-- A sample default drawable (nothing uploaded). -/
def sampleD : RenderObjectSt ℕ :=
  ⟨⟨[], []⟩, 0, 0, none, none, none, none, none, none⟩

/-- A sample ready preview state holding the one sample drawable. -/
def sampleSt : PreviewSt ℕ := ⟨4, 3, 4, 3, true, true, [sampleObj], []⟩

/-- Witness for C5: one ready drawable with model buffer 3, one pending
transform `77` — after a successful render the drawable's transform and
model-buffer content are `77`, all GPU handles unchanged. -/
theorem update_scene_transforms_apply_positionally_witness :
    (sampleSt.isReady = true ∧ 0 < ([77] : List ℕ).length ∧
      0 < sampleSt.renderObjects.length) ∧
    ((((previewRender (previewUpdateScene sampleSt [77]) 8 6 .ok .ok).state.renderObjects.getD 0
          sampleD).transform = ([77] : List ℕ).getD 0 0) ∧
      (((previewRender (previewUpdateScene sampleSt [77]) 8 6 .ok .ok).state.renderObjects.getD 0
          sampleD).modelBuffer =
        Option.map (fun p => (p.1, ([77] : List ℕ).getD 0 0))
          ((sampleSt.renderObjects.getD 0 sampleD).modelBuffer)) ∧
      (∀ j : ℕ, j < sampleSt.renderObjects.length →
        ((previewRender (previewUpdateScene sampleSt [77]) 8 6 .ok .ok).state.renderObjects.getD j
            sampleD).vertexBuffer = (sampleSt.renderObjects.getD j sampleD).vertexBuffer ∧
        ((previewRender (previewUpdateScene sampleSt [77]) 8 6 .ok .ok).state.renderObjects.getD j
            sampleD).indexBuffer = (sampleSt.renderObjects.getD j sampleD).indexBuffer ∧
        ((previewRender (previewUpdateScene sampleSt [77]) 8 6 .ok .ok).state.renderObjects.getD j
            sampleD).materialBuffer = (sampleSt.renderObjects.getD j sampleD).materialBuffer ∧
        Option.map Prod.fst
            ((previewRender (previewUpdateScene sampleSt [77]) 8 6 .ok .ok).state.renderObjects.getD j
              sampleD).modelBuffer =
          Option.map Prod.fst ((sampleSt.renderObjects.getD j sampleD).modelBuffer) ∧
        ((previewRender (previewUpdateScene sampleSt [77]) 8 6 .ok .ok).state.renderObjects.getD j
            sampleD).materialBindGroup = (sampleSt.renderObjects.getD j sampleD).materialBindGroup ∧
        ((previewRender (previewUpdateScene sampleSt [77]) 8 6 .ok .ok).state.renderObjects.getD j
            sampleD).modelBindGroup = (sampleSt.renderObjects.getD j sampleD).modelBindGroup)) :=
  ⟨⟨rfl, by decide, by decide⟩,
    update_scene_transforms_apply_positionally.2.2 ℕ sampleSt [77] 8 6 .ok .ok
      sampleD 0 0 rfl (by decide) (by decide)⟩

/-- C2 (counterexample to the claim as stated): a surface-"lost" failure
(display text "The swap chain has been lost and needs to be recreated",
matching none of the code's substring patterns) is returned from the
primary render immediately — no reconfiguration, a single acquire
attempt, no retry — even though the supplied second acquire would have
succeeded; and on an "outdated" failure with stored size 100×100 while
the window is currently 200×150, the code reconfigures with the window's
current inner size 200×150, not the Output's last-known 100×100. -/
theorem surface_acquire_retry_claim_counterexample :
    (vibeRenderAcquire ⟨100, 100, 100, 100, 7⟩ 100 100
        (.err (surfaceErrMsg .lost)) .ok).result =
      .error (rendererAcquireErrMsg (surfaceErrMsg .lost)) ∧
    (vibeRenderAcquire ⟨100, 100, 100, 100, 7⟩ 100 100
        (.err (surfaceErrMsg .lost)) .ok).reconfigured = [] ∧
    (vibeRenderAcquire ⟨100, 100, 100, 100, 7⟩ 100 100
        (.err (surfaceErrMsg .lost)) .ok).acquireAttempts = 1 ∧
    (vibeRenderAcquire ⟨100, 100, 100, 100, 7⟩ 200 150
        (.err (surfaceErrMsg .outdated)) .ok).reconfigured = [(200, 150)] ∧
    (vibeRenderAcquire ⟨100, 100, 100, 100, 7⟩ 200 150
        (.err (surfaceErrMsg .outdated)) .ok).state.configWidth = 200 ∧
    ¬ (vibeRenderAcquire ⟨100, 100, 100, 100, 7⟩ 200 150
        (.err (surfaceErrMsg .outdated)) .ok).state.configWidth = 100 :=
  ⟨rfl, rfl, rfl, rfl, rfl, by decide⟩

/-- C2 (amended): for each Output, an acquire failure whose error text
matches the code's recognized transient patterns — which includes the
surface-"outdated" error — triggers one reconfiguration using the
window's current inner size followed by exactly one retry inside the
same render call; a successful retry leaves the caller with no error, a
failed retry surfaces as the per-frame render error; a failure with an
unrecognized text is surfaced immediately, without reconfigure or
retry.  (For the preview Output, ready with drawables present.) -/
theorem surface_acquire_retry_behavior :
    (∀ (st : RendererSt) (w h : ℕ) (a2 : AcquireResult),
      vibeRenderAcquire st w h .ok a2 = ⟨st, .ok (), [], 1⟩) ∧
    (∀ (st : RendererSt) (w h : ℕ) (msg : String),
      mainErrMatches (rendererAcquireErrMsg msg) = true →
      vibeRenderAcquire st w h (.err msg) .ok =
        ⟨(rendererResize st w h).1, .ok (), [(w, h)], 2⟩ ∧
      ∀ m2 : String,
        vibeRenderAcquire st w h (.err msg) (.err m2) =
          ⟨(rendererResize st w h).1, .error (rendererAcquireErrMsg m2), [(w, h)], 2⟩) ∧
    (∀ (st : RendererSt) (w h : ℕ) (msg : String) (a2 : AcquireResult),
      mainErrMatches (rendererAcquireErrMsg msg) = false →
      vibeRenderAcquire st w h (.err msg) a2 =
        ⟨st, .error (rendererAcquireErrMsg msg), [], 1⟩) ∧
    mainErrMatches (rendererAcquireErrMsg (surfaceErrMsg .outdated)) = true ∧
    previewErrMatches (surfaceErrMsg .outdated) = true ∧
    (∀ (M : Type) (st : PreviewSt M) (w h : ℕ) (a2 : AcquireResult),
      st.isReady = true → st.renderObjects.isEmpty = false →
      (previewRender st w h .ok a2).result = .ok () ∧
      (previewRender st w h .ok a2).reconfigured = [] ∧
      (previewRender st w h .ok a2).acquireAttempts = 1 ∧
      (previewRender st w h .ok a2).presented = true) ∧
    (∀ (M : Type) (st : PreviewSt M) (w h : ℕ) (msg : String),
      st.isReady = true → st.renderObjects.isEmpty = false →
      previewErrMatches msg = true →
      ((previewRender st w h (.err msg) .ok).result = .ok () ∧
        (previewRender st w h (.err msg) .ok).reconfigured = [(w, h)] ∧
        (previewRender st w h (.err msg) .ok).acquireAttempts = 2 ∧
        (previewRender st w h (.err msg) .ok).presented = true) ∧
      ∀ m2 : String,
        (previewRender st w h (.err msg) (.err m2)).result =
            .error ("Failed to acquire surface texture after reconfigure: " ++ m2) ∧
        (previewRender st w h (.err msg) (.err m2)).reconfigured = [(w, h)] ∧
        (previewRender st w h (.err msg) (.err m2)).acquireAttempts = 2) ∧
    (∀ (M : Type) (st : PreviewSt M) (w h : ℕ) (msg : String) (a2 : AcquireResult),
      st.isReady = true → st.renderObjects.isEmpty = false →
      previewErrMatches msg = false →
      (previewRender st w h (.err msg) a2).result =
          .error ("Failed to acquire surface texture: " ++ msg) ∧
      (previewRender st w h (.err msg) a2).reconfigured = [] ∧
      (previewRender st w h (.err msg) a2).acquireAttempts = 1) := by
  refine ⟨fun st w h a2 => rfl, ?_, ?_, by decide, by decide, ?_, ?_, ?_⟩
  · intro st w h msg hm
    constructor
    · simp [vibeRenderAcquire, hm]
    · intro m2
      simp [vibeRenderAcquire, hm]
  · intro st w h msg a2 hm
    cases a2 <;> simp [vibeRenderAcquire, hm]
  · intro M st w h a2 hready hne
    refine ⟨?_, ?_, ?_, ?_⟩ <;> simp [previewRender, hready, hne]
  · intro M st w h msg hready hne hm
    refine ⟨⟨?_, ?_, ?_, ?_⟩, ?_⟩
    · simp [previewRender, hready, hne, hm]
    · simp [previewRender, hready, hne, hm]
    · simp [previewRender, hready, hne, hm]
    · simp [previewRender, hready, hne, hm]
    · intro m2
      refine ⟨?_, ?_, ?_⟩ <;> simp [previewRender, hready, hne, hm]
  · intro M st w h msg a2 hready hne hm
    refine ⟨?_, ?_, ?_⟩ <;> simp [previewRender, hready, hne, hm]

/-- Witness for C2: the concrete "outdated" recovery on both Outputs
(primary state 100×100, window 200×150; preview `sampleSt`), and the
unmatched "lost" pass-through. -/
theorem surface_acquire_retry_behavior_witness :
    (mainErrMatches (rendererAcquireErrMsg (surfaceErrMsg .outdated)) = true ∧
      mainErrMatches (rendererAcquireErrMsg (surfaceErrMsg .lost)) = false ∧
      previewErrMatches (surfaceErrMsg .outdated) = true ∧
      sampleSt.isReady = true ∧ sampleSt.renderObjects.isEmpty = false) ∧
    vibeRenderAcquire ⟨100, 100, 100, 100, 7⟩ 200 150
        (.err (surfaceErrMsg .outdated)) .ok =
      ⟨(rendererResize ⟨100, 100, 100, 100, 7⟩ 200 150).1, .ok (), [(200, 150)], 2⟩ ∧
    vibeRenderAcquire ⟨100, 100, 100, 100, 7⟩ 200 150
        (.err (surfaceErrMsg .lost)) .ok =
      ⟨⟨100, 100, 100, 100, 7⟩,
        .error (rendererAcquireErrMsg (surfaceErrMsg .lost)), [], 1⟩ ∧
    ((previewRender sampleSt 200 150 (.err (surfaceErrMsg .outdated)) .ok).result = .ok () ∧
      (previewRender sampleSt 200 150 (.err (surfaceErrMsg .outdated)) .ok).reconfigured =
        [(200, 150)] ∧
      (previewRender sampleSt 200 150 (.err (surfaceErrMsg .outdated)) .ok).acquireAttempts = 2 ∧
      (previewRender sampleSt 200 150 (.err (surfaceErrMsg .outdated)) .ok).presented = true) :=
  ⟨⟨by decide, by decide, by decide, rfl, rfl⟩,
    (surface_acquire_retry_behavior.2.1 ⟨100, 100, 100, 100, 7⟩ 200 150
      (surfaceErrMsg .outdated) (by decide)).1,
    surface_acquire_retry_behavior.2.2.1 ⟨100, 100, 100, 100, 7⟩ 200 150
      (surfaceErrMsg .lost) .ok (by decide),
    (surface_acquire_retry_behavior.2.2.2.2.2.2.1 ℕ sampleSt 200 150
      (surfaceErrMsg .outdated) rfl rfl (by decide)).1⟩

end VibeVJ
